import Mathlib

/-!
Shallow embedding of `calculator.py` from the simplecalc repository.

The core logic of the program is four arithmetic functions (`add`,
`subtract`, `multiply`, `divide`) on Python floats and one dispatch
function `calculate` that reads two raw operand texts and an operator
token, parses the texts with Python's `float()`, invokes the matching
operation and produces the display string written into the result label.
Here `calculate` is embedded as a pure function from the two raw texts
and the operator token to the display string (the tkinter widgets only
transport these strings).

Python floats are modelled by the type `PyFloat`: a finite value carries
an exact signed rational magnitude; negative zero, the two infinities
and NaN are separate constructors.  IEEE-754 special-value rules for the
four operations are modelled case by case; finite results are computed
exactly, with overflow to the infinities at magnitude 2 ^ 1024.  The
model does not round to 53-bit precision and does not track the sign of
zero results of arithmetic; no claim under verification depends on
rounding or on zero-sign propagation, only on special values, on the
exactness of the divisor zero test and on exactly representable values.
-/

set_option maxRecDepth 8000

namespace SimpleCalc

/-- Unnormalised rational number: numerator over a positive natural
denominator.  All constructions below keep `den` positive.  This carrier
is used instead of `Rat` so that every operation reduces inside the
kernel. -/
structure Frac where
  num : Int
  den : Nat
  deriving DecidableEq, Repr

/-- Embed an integer as a fraction over denominator 1. -/
def Frac.ofInt (n : Int) : Frac := ⟨n, 1⟩

/-- Exact sum of two fractions. -/
def Frac.add (a b : Frac) : Frac :=
  ⟨a.num * (b.den : Int) + b.num * (a.den : Int), a.den * b.den⟩

/-- Exact product of two fractions. -/
def Frac.mul (a b : Frac) : Frac := ⟨a.num * b.num, a.den * b.den⟩

/-- Negation of a fraction. -/
def Frac.neg (a : Frac) : Frac := ⟨-a.num, a.den⟩

/-- Exact quotient of two fractions; the sign moves into the numerator
so the denominator stays natural.  Only called with `b` nonzero. -/
def Frac.div (a b : Frac) : Frac :=
  if b.num < 0 then ⟨-(a.num * (b.den : Int)), a.den * b.num.natAbs⟩
  else ⟨a.num * (b.den : Int), a.den * b.num.natAbs⟩

/-- Value-level zero test (the represented rational is 0). -/
def Frac.isZero (a : Frac) : Bool := a.num = 0

/-- Strict negativity of the represented rational. -/
def Frac.isNeg (a : Frac) : Bool := a.num < 0

/-- Test `|a| ≥ n` for a natural bound `n`. -/
def Frac.absGe (a : Frac) (n : Nat) : Bool := n * a.den ≤ a.num.natAbs

/-- Magnitude at which double-precision arithmetic overflows to an
infinity (the model uses the exact power 2 ^ 1024). -/
def FLOAT_OVERFLOW_BOUND : Nat := Nat.pow 2 1024

/-- Model of a Python (IEEE-754 double) float.  `finite v` with
`v.isZero` is positive zero; negative zero, infinities and NaN are their
own constructors. -/
inductive PyFloat where
  | finite (val : Frac)
  | negZero
  | inf
  | negInf
  | nan
  deriving DecidableEq, Repr

/-- Mathematical zero test on a float (both zeros; NaN and the
infinities are not zero). -/
def PyFloat.isZero : PyFloat → Bool
  | .finite v => v.isZero
  | .negZero => true
  | _ => false

/-- Sign bit of a float, used for the sign of products, quotients and
infinities. -/
def PyFloat.isNeg : PyFloat → Bool
  | .finite v => v.isNeg
  | .negZero => true
  | .negInf => true
  | _ => false

/-- A float is finite when it is neither an infinity nor NaN (both zeros
are finite). -/
def PyFloat.isFinite : PyFloat → Bool
  | .finite _ => true
  | .negZero => true
  | _ => false

/-- Rational magnitude of a finite float (0 for the non-finite
constructors, on which it is never used). -/
def PyFloat.toFrac : PyFloat → Frac
  | .finite v => v
  | _ => Frac.ofInt 0

/-- Package an exact rational result as a float, overflowing to a signed
infinity at magnitude 2 ^ 1024. -/
def mkFinite (q : Frac) : PyFloat :=
  if q.absGe FLOAT_OVERFLOW_BOUND then
    (if q.isNeg then PyFloat.negInf else PyFloat.inf)
  else PyFloat.finite q

/-- Model of Python's `y == 0` comparison between a float `y` and the
integer 0: true exactly for positive and negative zero; NaN compares
unequal to everything, and nonzero finites and infinities are not 0. -/
def pyEqZero : PyFloat → Bool
  | .finite v => v.isZero
  | .negZero => true
  | .inf => false
  | .negInf => false
  | .nan => false

/-- IEEE addition on the model: NaN propagates, opposite infinities give
NaN, an infinity absorbs a finite, finite sums are exact. -/
def fadd : PyFloat → PyFloat → PyFloat
  | .nan, _ => .nan
  | _, .nan => .nan
  | .inf, .negInf => .nan
  | .negInf, .inf => .nan
  | .inf, _ => .inf
  | _, .inf => .inf
  | .negInf, _ => .negInf
  | _, .negInf => .negInf
  | x, y => mkFinite (Frac.add x.toFrac y.toFrac)

/-- IEEE negation on the model (flips the sign of zero as well). -/
def fneg : PyFloat → PyFloat
  | .finite v => if v.isZero then PyFloat.negZero else PyFloat.finite (Frac.neg v)
  | .negZero => PyFloat.finite (Frac.ofInt 0)
  | .inf => PyFloat.negInf
  | .negInf => PyFloat.inf
  | .nan => PyFloat.nan

/-- IEEE subtraction on the model: `x - y` is `x + (-y)`. -/
def fsub (x y : PyFloat) : PyFloat := fadd x (fneg y)

/-- IEEE multiplication on the model: NaN propagates, infinity times
zero is NaN, infinity times a nonzero value is a signed infinity, finite
products are exact. -/
def fmul : PyFloat → PyFloat → PyFloat
  | .nan, _ => .nan
  | _, .nan => .nan
  | .inf, y => if y.isZero then .nan else if y.isNeg then .negInf else .inf
  | .negInf, y => if y.isZero then .nan else if y.isNeg then .inf else .negInf
  | x, .inf => if x.isZero then .nan else if x.isNeg then .negInf else .inf
  | x, .negInf => if x.isZero then .nan else if x.isNeg then .inf else .negInf
  | x, y => mkFinite (Frac.mul x.toFrac y.toFrac)

/-- IEEE division on the model: NaN propagates, infinity over infinity
is NaN, infinity over a finite is a signed infinity, a finite over an
infinity is zero, finite quotients are exact with overflow to a signed
infinity.  The zero-divisor branch follows the IEEE rules (0/0 is NaN,
x/0 a signed infinity); `divide` below never reaches it because of its
guard. -/
def fdiv : PyFloat → PyFloat → PyFloat
  | .nan, _ => .nan
  | _, .nan => .nan
  | .inf, .inf => .nan
  | .inf, .negInf => .nan
  | .negInf, .inf => .nan
  | .negInf, .negInf => .nan
  | .inf, y => if y.isNeg then .negInf else .inf
  | .negInf, y => if y.isNeg then .inf else .negInf
  | _, .inf => .finite (Frac.ofInt 0)
  | _, .negInf => .finite (Frac.ofInt 0)
  | x, y =>
    if y.isZero then
      (if x.isZero then .nan
       else if x.isNeg = y.isNeg then .inf else .negInf)
    else mkFinite (Frac.div x.toFrac y.toFrac)

/-- Value of the Python union type `Union[float, str]` that `divide`
returns and that `calculate` stores in its `result` variable. -/
inductive CalcValue where
  | num (v : PyFloat)
  | str (s : String)
  deriving DecidableEq, Repr

/-- Constant `DIVISION_BY_ZERO_ERROR` from `calculator.py`. -/
def DIVISION_BY_ZERO_ERROR : String := "Error: Division by zero"

/-- Constant `INPUT_ERROR` from `calculator.py`. -/
def INPUT_ERROR : String := "INPUT ERROR! Please enter valid numbers."

/-- Constant `MATH_ERROR` from `calculator.py`. -/
def MATH_ERROR : String := "MATH ERROR! Division by zero is not allowed."

/-- Embedding of `add(x, y)`: return `x + y`. -/
def add (x y : PyFloat) : PyFloat := fadd x y

/-- Embedding of `subtract(x, y)`: return `x - y`. -/
def subtract (x y : PyFloat) : PyFloat := fsub x y

/-- Embedding of `multiply(x, y)`: return `x * y`. -/
def multiply (x y : PyFloat) : PyFloat := fmul x y

/-- Embedding of `divide(x, y)`: if `y == 0` return the
`DIVISION_BY_ZERO_ERROR` string, else return `x / y`. -/
def divide (x y : PyFloat) : CalcValue :=
  if pyEqZero y then CalcValue.str DIVISION_BY_ZERO_ERROR
  else CalcValue.num (fdiv x y)

/-- ASCII whitespace, as stripped by Python's `float()` around the
number text. -/
def isSpace (c : Char) : Bool :=
  c = ' ' ∨ c = '\t' ∨ c = '\n' ∨ c = '\r' ∨ c = '\x0b' ∨ c = '\x0c'

/-- Drop leading whitespace characters. -/
def dropLeadingSpace : List Char → List Char
  | [] => []
  | c :: cs => if isSpace c then dropLeadingSpace cs else c :: cs

/-- Strip whitespace from both ends of a character list. -/
def stripSpace (cs : List Char) : List Char :=
  (dropLeadingSpace (dropLeadingSpace cs).reverse).reverse

/-- Consume an optional leading sign; the Bool is true for a minus. -/
def parseSign : List Char → Bool × List Char
  | '+' :: cs => (false, cs)
  | '-' :: cs => (true, cs)
  | cs => (false, cs)

/-- Read a maximal run of decimal digits, returning their value, how
many there were, and the rest of the input. -/
def readDigits (acc count : Nat) : List Char → Nat × Nat × List Char
  | [] => (acc, count, [])
  | c :: cs =>
    if c.isDigit then readDigits (acc * 10 + (c.toNat - 48)) (count + 1) cs
    else (acc, count, c :: cs)

/-- Read the mantissa of a float literal: digits with an optional
fractional part, at least one digit in total ("1", "1.", ".5" and "1.5"
are accepted, "." and "" are not).  Returns the nonnegative value as an
exact fraction over a power of ten, and the rest of the input. -/
def parseMantissa (cs : List Char) : Option (Frac × List Char) :=
  let (ip, ni, rest) := readDigits 0 0 cs
  match rest with
  | '.' :: rest2 =>
    let (fp, nf, rest3) := readDigits 0 0 rest2
    if ni + nf = 0 then none
    else some (⟨Int.ofNat (ip * Nat.pow 10 nf + fp), Nat.pow 10 nf⟩, rest3)
  | _ =>
    if ni = 0 then none else some (⟨Int.ofNat ip, 1⟩, rest)

/-- Read an optional exponent part `e`/`E`, optional sign, digits; when
an `e` is present the digits are mandatory. -/
def parseExponent : List Char → Option (Int × List Char)
  | 'e' :: cs => parseExponentDigits cs
  | 'E' :: cs => parseExponentDigits cs
  | cs => some (0, cs)
where
  /-- Sign and mandatory digits after the `e`. -/
  parseExponentDigits (cs : List Char) : Option (Int × List Char) :=
    let (neg, cs1) := parseSign cs
    let (d, n, rest) := readDigits 0 0 cs1
    if n = 0 then none
    else some (if neg then -(Int.ofNat d) else Int.ofNat d, rest)

/-- Power of ten as an exact fraction, for the exponent part. -/
def pow10 : Int → Frac
  | Int.ofNat k => ⟨Int.ofNat (Nat.pow 10 k), 1⟩
  | Int.negSucc k => ⟨1, Nat.pow 10 (k + 1)⟩

/-- Package a parsed sign and nonnegative magnitude as a float: a zero
magnitude keeps the sign as negative zero, a huge magnitude overflows to
a signed infinity as C `strtod` does. -/
def mkParsed (neg : Bool) (mag : Frac) : PyFloat :=
  if mag.isZero then
    (if neg then PyFloat.negZero else PyFloat.finite mag)
  else mkFinite (if neg then Frac.neg mag else mag)

/-- Model of Python's `float(s)` conversion used by `calculate` on the
entry texts: optional surrounding whitespace, optional sign, then either
a decimal literal (digits, optional fraction, optional exponent) or one
of the words `inf`, `infinity`, `nan` in any letter case.  Returns
`none` where `float()` raises `ValueError`.  Digit-group underscores and
rounding of the decimal value to 53-bit precision are not modelled (no
claim depends on them). -/
def parseFloat (s : String) : Option PyFloat :=
  let cs := stripSpace s.toList
  let (neg, cs1) := parseSign cs
  let low := cs1.map Char.toLower
  if low = ['i', 'n', 'f'] ∨ low = ['i', 'n', 'f', 'i', 'n', 'i', 't', 'y'] then
    some (if neg then PyFloat.negInf else PyFloat.inf)
  else if low = ['n', 'a', 'n'] then some PyFloat.nan
  else
    match parseMantissa cs1 with
    | none => none
    | some (m, rest) =>
      match parseExponent rest with
      | none => none
      | some (e, rest2) =>
        if rest2.isEmpty then some (mkParsed neg (Frac.mul m (pow10 e)))
        else none

/-- Smallest `k ≤ fuel` such that the fraction times `10 ^ k` is an
integer, i.e. the number of digits after the decimal point in an exact
decimal rendering. -/
def decExp (a : Frac) (k fuel : Nat) : Option Nat :=
  match fuel with
  | 0 => none
  | f + 1 =>
    if a.num.natAbs * Nat.pow 10 k % a.den = 0 then some k
    else decExp a (k + 1) f

/-- Decimal digit string for a nonnegative value `n / 10 ^ k`, always
with a decimal point and at least one digit on each side of it. -/
def renderDigits (n k : Nat) : String :=
  let ds := (toString n).toList
  let ds := if ds.length ≤ k then List.replicate (k + 1 - ds.length) '0' ++ ds else ds
  if k = 0 then String.mk ds ++ ".0"
  else String.mk (ds.take (ds.length - k)) ++ "." ++ String.mk (ds.drop (ds.length - k))

/-- Model of Python's `str()` on a float, as used by the f-string in
`calculate`: `nan`, `inf`, `-inf`, `-0.0`, and plain decimal notation
for finite values (`8.0`, `-23.0`, `2.5`).  CPython's switch to
scientific notation at extreme magnitudes and its shortest-roundtrip
digit selection for values needing more than the fuel's digits are not
modelled (no claim depends on them); such values fall back to a
numerator/denominator rendering. -/
def pyFloatStr : PyFloat → String
  | .nan => "nan"
  | .inf => "inf"
  | .negInf => "-inf"
  | .negZero => "-0.0"
  | .finite v =>
    let sgn := if v.isNeg then "-" else ""
    match decExp v 0 600 with
    | some k => sgn ++ renderDigits (v.num.natAbs * Nat.pow 10 k / v.den) k
    | none => sgn ++ toString v.num.natAbs ++ "/" ++ toString v.den

/-- Rendering of the `result` variable by the f-string: a float renders
with `str()`, a string renders as itself. -/
def calcValueStr : CalcValue → String
  | .num v => pyFloatStr v
  | .str s => s

/-- Model of Python's `result == DIVISION_BY_ZERO_ERROR` comparison: a
float is never equal to a string, two strings compare by contents. -/
def pyEqStr (v : CalcValue) (s : String) : Bool :=
  match v with
  | .num _ => false
  | .str t => t = s

/-- Display string `f"Result: {result}"`. -/
def fmtResult (v : CalcValue) : String := "Result: " ++ calcValueStr v

/-- Embedding of `calculate`: parse both entry texts with `float()`
(a `ValueError` in either parse is caught and displays `INPUT_ERROR`),
branch on the operator token, let `divide` report division by zero as
`MATH_ERROR`, and otherwise display `"Result: "` followed by the
rendering of the operation's value; an unrecognized operator yields the
string result `"Invalid operation"`.  The function returns the text
written into the result label. -/
def calculate (rawNum1 rawNum2 operation : String) : String :=
  match parseFloat rawNum1, parseFloat rawNum2 with
  | some num1, some num2 =>
    if operation = "+" then fmtResult (CalcValue.num (add num1 num2))
    else if operation = "-" then fmtResult (CalcValue.num (subtract num1 num2))
    else if operation = "*" then fmtResult (CalcValue.num (multiply num1 num2))
    else if operation = "/" then
      let result := divide num1 num2
      if pyEqStr result DIVISION_BY_ZERO_ERROR then MATH_ERROR
      else fmtResult result
    else fmtResult (CalcValue.str "Invalid operation")
  | _, _ => INPUT_ERROR

/-- Operation selected by a recognized operator token, used to state
what value a successful dispatch displays. -/
def opApply (operation : String) (a b : PyFloat) : PyFloat :=
  if operation = "+" then add a b
  else if operation = "-" then subtract a b
  else if operation = "*" then multiply a b
  else fdiv a b

/-!
Theorems for the claims, in claim order.  Shared helper lemmas come
first.
-/

/-- Helper: when either entry text fails to parse, `calculate` displays
the fixed invalid-input message (used for the parse-failure claims). -/
theorem calculate_parse_none_eq_input_error (r1 r2 operation : String)
    (h : parseFloat r1 = none ∨ parseFloat r2 = none) :
    calculate r1 r2 operation = INPUT_ERROR := by
  rcases h with h | h
  · simp [calculate, h]
  · cases hp : parseFloat r1 <;> simp [calculate, h, hp]

/-- C1: for every x and nonzero y (the zero test on the divisor being
Python's exact `y == 0`, with no epsilon tolerance), `divide x y`
returns the floating-point quotient `x / y`; moreover an extreme
magnitude ratio of finite operands does produce an infinity. -/
theorem divide_nonzero_is_quotient :
    (∀ x y : PyFloat, pyEqZero y = false →
      divide x y = CalcValue.num (fdiv x y)) ∧
    (∃ x y : PyFloat, pyEqZero y = false ∧ y.isFinite = true ∧
      fdiv x y = PyFloat.inf) := by
  constructor
  · intro x y h
    simp [divide, h]
  · refine ⟨PyFloat.finite (Frac.ofInt ((Nat.pow 2 1023 : Nat) : Int)),
      PyFloat.finite ⟨1, Nat.pow 2 1023⟩, ?_, ?_, ?_⟩ <;> decide

/-- Witness for C1 at a concrete tiny nonzero divisor. -/
theorem divide_nonzero_is_quotient_witness :
    divide (PyFloat.finite (Frac.ofInt 1)) (PyFloat.finite ⟨1, Nat.pow 10 300⟩) =
      CalcValue.num (fdiv (PyFloat.finite (Frac.ofInt 1))
        (PyFloat.finite ⟨1, Nat.pow 10 300⟩)) :=
  divide_nonzero_is_quotient.1 _ _ (by decide)

/-- C2: for every x, `divide x 0.0` returns the division-by-zero error
string, not a numeric result. -/
theorem divide_by_zero_signals (x : PyFloat) :
    divide x (PyFloat.finite (Frac.ofInt 0)) =
      CalcValue.str DIVISION_BY_ZERO_ERROR ∧
    ∀ v : PyFloat, divide x (PyFloat.finite (Frac.ofInt 0)) ≠ CalcValue.num v := by
  refine ⟨rfl, fun v h => ?_⟩
  simp [divide, pyEqZero, Frac.ofInt, Frac.isZero] at h

/-- C3: for all finite x and y, `add x y` is the floating-point sum
`x + y`, `subtract x y` the difference `x - y`, and `multiply x y` the
product `x * y`. -/
theorem arith_ops_exact (x y : PyFloat)
    (hx : x.isFinite = true) (hy : y.isFinite = true) :
    add x y = fadd x y ∧ subtract x y = fsub x y ∧ multiply x y = fmul x y :=
  ⟨rfl, rfl, rfl⟩

/-- Witness for C3 at concrete finite inputs. -/
theorem arith_ops_exact_witness :
    add (PyFloat.finite (Frac.ofInt 1)) (PyFloat.finite (Frac.ofInt 2)) =
      fadd (PyFloat.finite (Frac.ofInt 1)) (PyFloat.finite (Frac.ofInt 2)) ∧
    subtract (PyFloat.finite (Frac.ofInt 1)) (PyFloat.finite (Frac.ofInt 2)) =
      fsub (PyFloat.finite (Frac.ofInt 1)) (PyFloat.finite (Frac.ofInt 2)) ∧
    multiply (PyFloat.finite (Frac.ofInt 1)) (PyFloat.finite (Frac.ofInt 2)) =
      fmul (PyFloat.finite (Frac.ofInt 1)) (PyFloat.finite (Frac.ofInt 2)) :=
  arith_ops_exact _ _ rfl rfl

/-- C4: whenever both raw texts parse and the operator is one of the
four recognized tokens (with a nonzero divisor in the `/` case), the
dispatcher displays `"Result: "` followed by the decimal rendering of
the matching operation's value; in particular on `"3"`, `"5"`, `"+"`
it displays `"Result: 8.0"`. -/
theorem calculate_formats_result :
    (∀ (r1 r2 operation : String) (a b : PyFloat),
      parseFloat r1 = some a → parseFloat r2 = some b →
      (operation = "+" ∨ operation = "-" ∨ operation = "*" ∨ operation = "/") →
      (operation = "/" → pyEqZero b = false) →
      calculate r1 r2 operation = "Result: " ++ pyFloatStr (opApply operation a b)) ∧
    calculate "3" "5" "+" = "Result: 8.0" := by
  constructor
  · intro r1 r2 operation a b h1 h2 hop hdiv
    rcases hop with h | h | h | h <;> subst h
    · simp [calculate, h1, h2, fmtResult, calcValueStr, opApply]
    · simp [calculate, h1, h2, fmtResult, calcValueStr, opApply]
    · simp [calculate, h1, h2, fmtResult, calcValueStr, opApply]
    · simp [calculate, h1, h2, fmtResult, calcValueStr, opApply, divide,
        pyEqStr, hdiv rfl]
  · decide

/-- Witness for C4 at a concrete multiplication. -/
theorem calculate_formats_result_witness :
    calculate "50" "13" "*" =
      "Result: " ++ pyFloatStr (opApply "*" (PyFloat.finite (Frac.ofInt 50))
        (PyFloat.finite (Frac.ofInt 13))) :=
  calculate_formats_result.1 "50" "13" "*" _ _ (by decide) (by decide)
    (by decide) (by decide)

/-- C5: if either raw operand text fails to parse as a float, the
dispatcher displays the fixed invalid-input message. -/
theorem calculate_invalid_input (r1 r2 operation : String)
    (h : parseFloat r1 = none ∨ parseFloat r2 = none) :
    calculate r1 r2 operation = INPUT_ERROR :=
  calculate_parse_none_eq_input_error r1 r2 operation h

/-- Witness for C5: `"abc"` does not parse, so addition with it displays
the invalid-input message. -/
theorem calculate_invalid_input_witness :
    calculate "abc" "123" "+" = INPUT_ERROR :=
  calculate_invalid_input "abc" "123" "+" (Or.inl (by decide))

/-- C6: when the operator is `/`, both operands parse and the divisor is
exactly zero, the dispatcher displays the fixed math-error message. -/
theorem calculate_div_zero_math_error (r1 r2 : String) (a b : PyFloat)
    (h1 : parseFloat r1 = some a) (h2 : parseFloat r2 = some b)
    (hb : pyEqZero b = true) :
    calculate r1 r2 "/" = MATH_ERROR := by
  simp [calculate, h1, h2, divide, hb, pyEqStr]

/-- Witness for C6 at `"40" / "0"`. -/
theorem calculate_div_zero_math_error_witness :
    calculate "40" "0" "/" = MATH_ERROR :=
  calculate_div_zero_math_error "40" "0"
    (PyFloat.finite (Frac.ofInt 40)) (PyFloat.finite (Frac.ofInt 0))
    (by decide) (by decide) (by decide)

/-- C7: when both operands parse and the operator token is outside the
four recognized ones, the dispatcher displays the result string
`"Result: Invalid operation"`. -/
theorem calculate_unrecognized_op (r1 r2 operation : String) (a b : PyFloat)
    (h1 : parseFloat r1 = some a) (h2 : parseFloat r2 = some b)
    (hop : operation ≠ "+" ∧ operation ≠ "-" ∧ operation ≠ "*" ∧ operation ≠ "/") :
    calculate r1 r2 operation = "Result: Invalid operation" := by
  obtain ⟨o1, o2, o3, o4⟩ := hop
  simp [calculate, h1, h2, o1, o2, o3, o4, fmtResult, calcValueStr]

/-- Witness for C7 at the `%` token. -/
theorem calculate_unrecognized_op_witness :
    calculate "1" "1" "%" = "Result: Invalid operation" :=
  calculate_unrecognized_op "1" "1" "%"
    (PyFloat.finite (Frac.ofInt 1)) (PyFloat.finite (Frac.ofInt 1))
    (by decide) (by decide) (by decide)

/-- C8: on every pair of raw texts and every operator token the
dispatcher completes with some display string: the invalid-input
message, the math-error message, or a `"Result: "` string. -/
theorem calculate_always_displays (r1 r2 operation : String) :
    calculate r1 r2 operation = INPUT_ERROR ∨
    calculate r1 r2 operation = MATH_ERROR ∨
    ∃ s : String, calculate r1 r2 operation = "Result: " ++ s := by
  cases h1 : parseFloat r1 with
  | none => exact Or.inl (by simp [calculate, h1])
  | some a =>
    cases h2 : parseFloat r2 with
    | none => exact Or.inl (by simp [calculate, h1, h2])
    | some b =>
      by_cases e1 : operation = "+"
      · exact Or.inr (Or.inr ⟨calcValueStr (CalcValue.num (add a b)),
          by simp [calculate, h1, h2, e1, fmtResult]⟩)
      by_cases e2 : operation = "-"
      · exact Or.inr (Or.inr ⟨calcValueStr (CalcValue.num (subtract a b)),
          by simp [calculate, h1, h2, e1, e2, fmtResult]⟩)
      by_cases e3 : operation = "*"
      · exact Or.inr (Or.inr ⟨calcValueStr (CalcValue.num (multiply a b)),
          by simp [calculate, h1, h2, e1, e2, e3, fmtResult]⟩)
      by_cases e4 : operation = "/"
      · by_cases hz : pyEqZero b = true
        · exact Or.inr (Or.inl
            (by simp [calculate, h1, h2, e1, e2, e3, e4, divide, hz, pyEqStr]))
        · rw [Bool.not_eq_true] at hz
          exact Or.inr (Or.inr ⟨calcValueStr (CalcValue.num (fdiv a b)),
            by simp [calculate, h1, h2, e1, e2, e3, e4, divide, hz, pyEqStr,
              fmtResult]⟩)
      · exact Or.inr (Or.inr ⟨"Invalid operation",
          by simp [calculate, h1, h2, e1, e2, e3, e4, fmtResult, calcValueStr]⟩)

/-- C9: parsing precedes operator dispatch: when an operand fails to
parse and the operator token is also unrecognized, the dispatcher
displays the invalid-input message and not the invalid-operation result
string. -/
theorem calculate_parse_precedes_dispatch (r1 r2 operation : String)
    (h : parseFloat r1 = none ∨ parseFloat r2 = none)
    (hop : operation ≠ "+" ∧ operation ≠ "-" ∧ operation ≠ "*" ∧ operation ≠ "/") :
    calculate r1 r2 operation = INPUT_ERROR ∧
    calculate r1 r2 operation ≠ "Result: Invalid operation" := by
  have he := calculate_parse_none_eq_input_error r1 r2 operation h
  exact ⟨he, by rw [he]; decide⟩

/-- Witness for C9: unparseable operand together with the `%` token. -/
theorem calculate_parse_precedes_dispatch_witness :
    calculate "abc" "5" "%" = INPUT_ERROR ∧
    calculate "abc" "5" "%" ≠ "Result: Invalid operation" :=
  calculate_parse_precedes_dispatch "abc" "5" "%" (Or.inl (by decide)) (by decide)

/-- C10: for every x, dividing by negative zero is blocked exactly like
positive zero (Python's `-0.0 == 0` is true), while a NaN divisor is not
equal to zero and proceeds to ordinary division. -/
theorem divide_negzero_blocked_nan_proceeds (x : PyFloat) :
    divide x PyFloat.negZero = CalcValue.str DIVISION_BY_ZERO_ERROR ∧
    divide x PyFloat.nan = CalcValue.num (fdiv x PyFloat.nan) :=
  ⟨rfl, rfl⟩

end SimpleCalc
